import Mathlib

/-!
# Shallow embedding of the outbreak aggregator and the prescription payment gate

This file embeds the two logic fragments of the repository that the
specification documents:

* the outbreak report aggregator of `src/components/SEO.tsx`
  (`groupLocal`, the `localEntries` sorted projection, the response-text
  parsing and the retry handling of `fetchGlobalOutbreaks`);
* the prescription payment gate of `src/pages/PrescriptionBox.tsx`
  (`handleConfirmPayment`, `handleVerifyYes`, `handleVerifyNo`,
  `handleSendPrescription`, and the `shouldBlur` display policy).

JavaScript objects used as dictionaries (`Record<string, ...>`) are embedded
as insertion-ordered association lists, matching `Object.entries` enumeration
order for string keys; `Array.prototype.sort` (a stable sort in the engines
this app targets) is embedded as a stable insertion sort; `JSON.parse` is an
external runtime facility and is abstracted as an explicit
`String → Option JsonValue` parameter; JavaScript truthiness of an optional
string (`s || "Unknown"`) is embedded explicitly (null/undefined/empty string
are the falsy cases).
-/

namespace HealthHub

/-! ## Data model: reports (src/components/SEO.tsx, OutbreakBoxProps) -/

/-- A patient-submitted report record, from the `reports` prop of
`OutbreakBox`: `{ id: string; type?: string; location?: string | null;
createdAt?: number }`.  Optional/nullable fields are `Option`s. -/
structure Report where
  id : String
  type : Option String
  location : Option String
  createdAt : Option Nat
deriving DecidableEq, Repr

/-- JavaScript `a || d` for an optional string `a`: `null`, `undefined` and
the empty string are falsy and select the default `d`. -/
def jsOrDefault (a : Option String) (d : String) : String :=
  match a with
  | none => d
  | some s => if s = "" then d else s

/-- Remove leading whitespace characters from a character list. -/
def trimLeading : List Char → List Char
  | [] => []
  | c :: t => if c.isWhitespace then trimLeading t else c :: t

/-- Remove leading and trailing whitespace (JavaScript `String.prototype.trim`
on the ASCII range: both remove spaces, tabs and line breaks at either end). -/
def trimChars (cs : List Char) : List Char :=
  trimLeading (trimLeading cs.reverse).reverse

/-- JavaScript `.toString().trim().toLowerCase()` applied to a string value
(`Char.toLower` agrees with `toLowerCase` on the ASCII range). -/
def normalizeKey (s : String) : String :=
  String.mk ((trimChars s.toList).map Char.toLower)

/-- The city key of a record: `(r.location || "Unknown").toString().trim().toLowerCase()`. -/
def cityKey (r : Report) : String :=
  normalizeKey (jsOrDefault r.location "Unknown")

/-- The disease key of a record: `(r.type || "Unknown").toString().trim().toLowerCase()`. -/
def diseaseKey (r : Report) : String :=
  normalizeKey (jsOrDefault r.type "Unknown")

/-! ## The aggregation table

`type Aggregated = Record<string, Record<string, number>>` — city → disease →
count.  A `Record` is embedded as an insertion-ordered association list: a JS
object keeps string keys in insertion order, a key absent on update is
appended at the end, and `Object.entries` enumerates in that order. -/

/-- Inner table: disease → count. -/
abbrev DiseaseCounts := List (String × Nat)

/-- Outer table: city → inner table. -/
abbrev Aggregated := List (String × DiseaseCounts)

/-- Association-list lookup (JS property read `o[k]`, `none` = `undefined`). -/
def alistFind {α : Type} (l : List (String × α)) (k : String) : Option α :=
  match l with
  | [] => none
  | (k', v) :: t => if k' = k then some v else alistFind t k

/-- The update `agg[city][disease] = (agg[city][disease] || 0) + 1` on the inner table:
bump the count at `k`, appending `(k, 1)` when `k` is absent. -/
def bumpDisease (m : DiseaseCounts) (k : String) : DiseaseCounts :=
  match m with
  | [] => [(k, 1)]
  | (k', v) :: t => if k' = k then (k', v + 1) :: t else (k', v) :: bumpDisease t k

/-- One loop iteration of `groupLocal`: `if (!agg[city]) agg[city] = {};
agg[city][disease] = (agg[city][disease] || 0) + 1`. -/
def bumpCity (a : Aggregated) (c d : String) : Aggregated :=
  match a with
  | [] => [(c, [(d, 1)])]
  | (c', m) :: t => if c' = c then (c', bumpDisease m d) :: t else (c', m) :: bumpCity t c d

/-- Function `groupLocal` (src/components/SEO.tsx lines 36–45): fold every report into
the two-level frequency table. -/
def groupLocal (reports : List Report) : Aggregated :=
  reports.foldl (fun a r => bumpCity a (cityKey r) (diseaseKey r)) []

/-- The count recorded in the table for a (city, disease) pair; 0 when the
pair is absent. -/
def tableCount (a : Aggregated) (c d : String) : Nat :=
  match alistFind a c with
  | none => 0
  | some m =>
    match alistFind m d with
    | none => 0
    | some n => n

/-- The number of report records whose normalized fields match a
(city, disease) pair. -/
def matchCount (reports : List Report) (c d : String) : Nat :=
  reports.countP (fun r => cityKey r = c ∧ diseaseKey r = d)

/-! ## The sorted projection `localEntries` (src/components/SEO.tsx 142–150)

`Array.prototype.sort((a, b) => b.key - a.key)` with a consistent comparator
sorts descending by the key and is stable in the engines this app targets;
it is embedded as a stable insertion sort descending on a `Nat` key. -/

/-- Insert `x` into a list already sorted descending on `key`, after every
element of key ≥ `key x` (stability: later array elements stay after equal
keys). -/
def insertDesc {α : Type} (key : α → Nat) (x : α) : List α → List α
  | [] => [x]
  | y :: t => if key y < key x then x :: y :: t else y :: insertDesc key x t

/-- Stable sort descending on `key`, processing elements left to right. -/
def sortDesc {α : Type} (key : α → Nat) (l : List α) : List α :=
  l.foldl (fun acc x => insertDesc key x acc) []

/-- One entry of the projection: `{ city, diseases, total }`. -/
structure CityEntry where
  city : String
  diseases : DiseaseCounts
  total : Nat
deriving DecidableEq, Repr

/-- Sum of the counts of an inner table (`Object.values(dis).reduce((s, n) => s + n, 0)`). -/
def sumCounts (m : DiseaseCounts) : Nat :=
  (m.map Prod.snd).sum

/-- Projection `localEntries` (src/components/SEO.tsx lines 142–150): map each city of
the aggregation to `{ city, diseases sorted by count descending, total = sum
of counts }`, then sort the entries by total descending. -/
def localEntries (reports : List Report) : List CityEntry :=
  sortDesc CityEntry.total
    ((groupLocal reports).map (fun p =>
      { city := p.1
        diseases := sortDesc Prod.snd p.2
        total := sumCounts p.2 }))

/-! ## Response-text parsing (src/components/SEO.tsx 93–119)

`JSON.parse` is part of the JavaScript runtime, not of this repository; it is
abstracted as an explicit parameter `jsonParse : String → Option JsonValue`
(`none` = the parse threw).  The logic owned by the repository — the two parse
attempts, the `typeof`-object check, the regex extraction and the error
selection — is embedded. -/

/-- A parsed JSON value (shape only; the numeric payload is irrelevant to the
control flow being verified). -/
inductive JsonValue where
  | null
  | bool (b : Bool)
  | num (n : Int)
  | str (s : String)
  | arr (elems : List JsonValue)
  | obj (fields : List (String × JsonValue))

/-- The check `typeof v === "object" && v !== null`: JSON objects and arrays pass
(`typeof` of a JS array is `"object"`); `null` is excluded explicitly. -/
def isObjectLike : JsonValue → Bool
  | .obj _ => true
  | .arr _ => true
  | _ => false

/-- The match of the greedy regex `/\{[\s\S]*\}/` against `text`: it matches
iff some `{` is followed by a later `}`, and the (leftmost, greedy) match
runs from the first `{` to the last `}` of the text. -/
def extractBraceBlock (text : String) : Option String :=
  let cs := text.toList
  match cs.findIdx? (· = '{') with
  | none => none
  | some i =>
    match cs.reverse.findIdx? (· = '}') with
    | none => none
    | some ri =>
      let j := cs.length - 1 - ri
      if i < j then some (String.mk ((cs.drop i).take (j - i + 1))) else none

/-- The inner `catch` of the response handling: regex-extract the first
`{...}` block and parse it (no object-shape check on this second attempt). -/
def fallbackParse (jsonParse : String → Option JsonValue) (text : String) :
    Except String JsonValue :=
  match extractBraceBlock text with
  | none => .error "Gemini API did not return JSON."
  | some block =>
    match jsonParse block with
    | some v => .ok v
    | none => .error "Unable to parse Gemini API response as JSON."

/-- Outcome of handling the text of a Gemini response
(src/components/SEO.tsx lines 93–119): first a direct `JSON.parse` of the
whole text, accepted when the result is a non-null object; on failure, a
parse of the regex-extracted `{...}` block, accepted whenever it parses; an
error otherwise (also when the response carried no text at all). -/
def parseOutbreakResponse (jsonParse : String → Option JsonValue)
    (textResponse : Option String) : Except String JsonValue :=
  match textResponse with
  | none => .error "Unexpected response format from Gemini API."
  | some text =>
    match jsonParse text with
    | some v =>
      if isObjectLike v then .ok v
      else fallbackParse jsonParse text
    | none => fallbackParse jsonParse text

/-- First attempt succeeds: the whole text parses to a non-null object. -/
def directParseOk (jsonParse : String → Option JsonValue) (text : String) : Bool :=
  match jsonParse text with
  | some v => isObjectLike v
  | none => false

/-- Second attempt succeeds: a `{...}` block is extracted and parses. -/
def extractParseOk (jsonParse : String → Option JsonValue) (text : String) : Bool :=
  match extractBraceBlock text with
  | some block => (jsonParse block).isSome
  | none => false

/-! ## Failure handling and retries (src/components/SEO.tsx 120–134) -/

/-- The constant `maxRetries = 3` (src/components/SEO.tsx line 53). -/
def maxRetries : Nat := 3

/-- What the `catch` block of `fetchGlobalOutbreaks` does with a failure. -/
inductive FailureOutcome where
  /-- Effects `setRetryCount(prev => prev + 1)`, a retryable error string, and
  `setTimeout(fetchGlobalOutbreaks, delayMs)`. -/
  | retryScheduled (newRetryCount : Nat) (delayMs : Nat) (errorMsg : String)
  /-- A terminal error string; no timer is set. -/
  | terminalError (errorMsg : String)
deriving DecidableEq, Repr

/-- The `catch` block of `fetchGlobalOutbreaks` (src/components/SEO.tsx lines
120–130): below the ceiling, schedule a retry after `2000 * (retryCount + 1)`
milliseconds and surface a retrying message; at the ceiling, surface the
error terminally. -/
def handleFetchFailure (retryCount : Nat) (errorMessage : String) : FailureOutcome :=
  if retryCount < maxRetries then
    .retryScheduled (retryCount + 1) (2000 * (retryCount + 1))
      ("Retrying... Failed to fetch global outbreaks: " ++ errorMessage)
  else
    .terminalError ("Failed to fetch global outbreaks after " ++ toString maxRetries
      ++ " retries: " ++ errorMessage)

/-! ## Prescription payment gate (src/pages/PrescriptionBox.tsx)

The state of the gate is the `payment_status` record `{ claimed, verified }` at
`prescriptions/{patientId}/payment_status`.  Each handler performs a whole-
object `set`; which handler a party can invoke in a given state is determined
by the rendering logic of the component (the Yes/No buttons of the doctor exist
only inside the verification popup, shown exactly when
`role === "doctor" && paymentClaimed && !paymentVerified`; the patient-side
Confirm Payment button is rendered exactly when
`hasDoctorSentFirst && !paymentVerified` and not `paymentClaimed`). -/

/-- The record `PaymentStatus`: `{ claimed: boolean, verified: boolean }`. -/
structure PaymentStatus where
  claimed : Bool
  verified : Bool
deriving DecidableEq, Repr

/-- The `Unclaimed` state `{claimed:false, verified:false}`. -/
def unclaimedPS : PaymentStatus := ⟨false, false⟩

/-- The `Claimed` state `{claimed:true, verified:false}`. -/
def claimedPS : PaymentStatus := ⟨true, false⟩

/-- The `Verified` state `{claimed:true, verified:true}`. -/
def verifiedPS : PaymentStatus := ⟨true, true⟩

/-- The value `handleConfirmPayment` writes (PrescriptionBox.tsx 232–237). -/
def confirmPaymentWrite : PaymentStatus := ⟨true, false⟩

/-- The value `handleVerifyYes` writes (PrescriptionBox.tsx 239–245). -/
def verifyYesWrite : PaymentStatus := ⟨true, true⟩

/-- The value `handleVerifyNo` writes (PrescriptionBox.tsx 247–253). -/
def verifyNoWrite : PaymentStatus := ⟨false, false⟩

/-- The value `handleSendPrescription` writes to `payment_status`
(PrescriptionBox.tsx line 222). -/
def sendPrescriptionWrite : PaymentStatus := ⟨false, false⟩

/-- The actions that mutate `payment_status`. -/
inductive GateAction where
  /-- Patient presses "Confirm Payment" (`handleConfirmPayment`). -/
  | confirmPayment
  /-- Doctor presses "Yes" in the verification popup (`handleVerifyYes`). -/
  | verifyYes
  /-- Doctor presses "No" in the verification popup (`handleVerifyNo`). -/
  | verifyNo
  /-- Doctor presses "Send Prescription" (`handleSendPrescription`). -/
  | sendPrescription
deriving DecidableEq, Repr

/-- One step of the payment gate as the UI exposes it.  `hasMsgs` is the
`hasDoctorSentFirst` flag of the component at the moment of the action.  An
action whose control is not rendered in the current state cannot fire and
leaves the state unchanged:

* "Confirm Payment" exists only when `hasDoctorSentFirst && !paymentVerified`
  holds and `paymentClaimed` is false (PrescriptionBox.tsx 420–439);
* the Yes/No buttons exist only inside the popup, which is shown exactly when
  `paymentClaimed && !paymentVerified` on the doctor side
  (PrescriptionBox.tsx 72–78 and 343–362);
* "Send Prescription" is always available to the doctor and writes
  `{claimed:false, verified:false}` (PrescriptionBox.tsx 221–222). -/
def gateStep (hasMsgs : Bool) (s : PaymentStatus) : GateAction → PaymentStatus
  | .confirmPayment =>
    if hasMsgs && !s.verified && !s.claimed then confirmPaymentWrite else s
  | .verifyYes =>
    if s.claimed && !s.verified then verifyYesWrite else s
  | .verifyNo =>
    if s.claimed && !s.verified then verifyNoWrite else s
  | .sendPrescription => sendPrescriptionWrite

/-- Run a sequence of events (each event: the `hasDoctorSentFirst` flag at
that moment, and the action). -/
def gateRun (s : PaymentStatus) (events : List (Bool × GateAction)) : PaymentStatus :=
  events.foldl (fun st e => gateStep e.1 st e.2) s

/-- Every state visited while running a sequence of events, the initial state
included. -/
def gateVisited (s : PaymentStatus) : List (Bool × GateAction) → List PaymentStatus
  | [] => [s]
  | e :: t => s :: gateVisited (gateStep e.1 s e.2) t

/-! ## Send-prescription and the blur policy (src/pages/PrescriptionBox.tsx) -/

/-- Message senders (`"doctor" | "patient" | "gemini"`). -/
inductive Sender where
  | doctor
  | patient
  | gemini
deriving DecidableEq, Repr

/-- Message types (`"chat" | "prescription" | "buyLink"`). -/
inductive MsgType where
  | chat
  | prescription
  | buyLink
deriving DecidableEq, Repr

/-- A chat message (PrescriptionBox.tsx `Message`). -/
structure Message where
  id : String
  sender : Sender
  type : MsgType
  text : String
  timestamp : Nat
deriving DecidableEq, Repr

/-- The component roles. -/
inductive Role where
  | doctor
  | patient
deriving DecidableEq, Repr

/-- The message-listener update of `hasDoctorSentFirst` (PrescriptionBox.tsx
line 52): set to true whenever the snapshot is non-empty; never reset. -/
def updateHasDoctorSentFirst (prev : Bool) (msgs : List Message) : Bool :=
  if msgs.length > 0 then true else prev

/-- Handler `handleSendPrescription` (PrescriptionBox.tsx 204–230): guards (all four
form fields non-empty — JS truthiness on strings — and a signed-in user and a
selected patient), then writes the prescription message and resets
`payment_status` to `{claimed:false, verified:false}`.  Returns the written
payment status, `none` when a guard aborted the handler; the previous status
`prev` is what the write replaces. -/
def handleSendPrescription (problemDiagnosis medicineNames dosageInstructions date : String)
    (hasUser hasPatientId : Bool) (_prev : PaymentStatus) : Option PaymentStatus :=
  if problemDiagnosis = "" || medicineNames = "" || dosageInstructions = "" || date = "" then
    none
  else if !hasUser || !hasPatientId then
    none
  else
    some sendPrescriptionWrite

/-- Predicate `shouldBlur` (PrescriptionBox.tsx 278–279):
`role === "patient" && hasDoctorSentFirst && !paymentVerified`. -/
def shouldBlur (role : Role) (hasDoctorSentFirst : Bool) (paymentVerified : Bool) : Bool :=
  role == .patient && hasDoctorSentFirst && !paymentVerified

/-- Whether the content div of a rendered message carries the obscuring classes
`"blur-sm select-none"` (PrescriptionBox.tsx 297–304): exactly when
`shouldBlur` holds and the message is a prescription or a buy link.  The
message text is rendered inside that div either way — blurring is a display
effect, the content is still delivered. -/
def isBlurred (role : Role) (hasDoctorSentFirst : Bool) (ps : PaymentStatus)
    (msg : Message) : Bool :=
  shouldBlur role hasDoctorSentFirst ps.verified
    && (msg.type == .prescription || msg.type == .buyLink)

/-! ## Example data used by witnesses and counterexamples -/

/-- The scenario records of the specification:
`[{type:"Flu",location:"Delhi"},{type:"flu",location:" delhi "},{type:"Dengue",location:"Mumbai"}]`. -/
def exReports : List Report :=
  [⟨"1", some "Flu", some "Delhi", none⟩,
   ⟨"2", some "flu", some " delhi ", none⟩,
   ⟨"3", some "Dengue", some "Mumbai", none⟩]

/-- A report whose location is the empty string (falsy in JS). -/
def exEmptyLocReport : Report := ⟨"e1", some "flu", some "", none⟩

/-- A report whose location is a single space (truthy in JS). -/
def exSpaceLocReport : Report := ⟨"e2", some "flu", some " ", none⟩

/-- A report with no location at all. -/
def exNoLocReport : Report := ⟨"e3", some "flu", none, none⟩

/-- A doctor-sent prescription message. -/
def exDoctorPrescriptionMsg : Message :=
  ⟨"m1", .doctor, .prescription, "Diagnosis: flu", 1⟩

/-- A Gemini-sent buy-link message (sender is neither doctor nor patient). -/
def exGeminiBuyLinkMsg : Message :=
  ⟨"m2", .gemini, .buyLink, "[Buy on 1mg](https://www.1mg.com)", 2⟩

/-! ## Helper lemmas: the aggregation table -/

lemma alistFind_bumpDisease (m : DiseaseCounts) (d d' : String) :
    (alistFind (bumpDisease m d) d').getD 0
      = (alistFind m d').getD 0 + (if d = d' then 1 else 0) := by
  induction m with
  | nil => by_cases hd : d = d' <;> simp [bumpDisease, alistFind, hd]
  | cons p t ih =>
    obtain ⟨k, v⟩ := p
    by_cases hk : k = d
    · subst hk
      by_cases hd : k = d' <;> simp [bumpDisease, alistFind, hd]
    · by_cases hd : k = d'
      · subst hd
        have hdk : ¬ d = k := fun h => hk h.symm
        simp [bumpDisease, alistFind, hk, hdk]
      · simp [bumpDisease, alistFind, hk, hd, ih]

lemma tableCount_eq_getD (a : Aggregated) (c d : String) :
    tableCount a c d = ((alistFind a c).map (fun m => (alistFind m d).getD 0)).getD 0 := by
  cases h : alistFind a c with
  | none => simp [tableCount, h]
  | some m => cases h2 : alistFind m d <;> simp [tableCount, h, h2]

lemma tableCount_bumpCity (a : Aggregated) (c d c' d' : String) :
    tableCount (bumpCity a c d) c' d'
      = tableCount a c' d' + (if c = c' ∧ d = d' then 1 else 0) := by
  simp only [tableCount_eq_getD]
  induction a with
  | nil =>
    by_cases hc : c = c' <;> by_cases hd : d = d' <;>
      simp [bumpCity, alistFind, hc, hd]
  | cons p t ih =>
    obtain ⟨k, m⟩ := p
    by_cases hk : k = c
    · subst hk
      by_cases hc : k = c'
      · subst hc
        simp [bumpCity, alistFind, alistFind_bumpDisease]
      · simp [bumpCity, alistFind, hc]
    · by_cases hc : k = c'
      · subst hc
        have hkc : ¬ c = k := fun h => hk h.symm
        simp [bumpCity, alistFind, hk, hkc]
      · simp [bumpCity, alistFind, hk, hc, ih]

lemma tableCount_foldl (rs : List Report) (a : Aggregated) (c d : String) :
    tableCount (rs.foldl (fun a r => bumpCity a (cityKey r) (diseaseKey r)) a) c d
      = tableCount a c d + matchCount rs c d := by
  induction rs generalizing a with
  | nil => simp [matchCount]
  | cons r t ih =>
    simp only [List.foldl_cons, ih, tableCount_bumpCity, matchCount, List.countP_cons]
    by_cases h : cityKey r = c ∧ diseaseKey r = d
    · simp [h]
      omega
    · simp [h]

lemma tableCount_groupLocal (rs : List Report) (c d : String) :
    tableCount (groupLocal rs) c d = matchCount rs c d := by
  have := tableCount_foldl rs [] c d
  simpa [groupLocal, tableCount, alistFind] using this

/-! ## Helper lemmas: the stable descending sort -/

lemma mem_insertDesc {α : Type} (key : α → Nat) (x y : α) (l : List α) :
    y ∈ insertDesc key x l ↔ y = x ∨ y ∈ l := by
  induction l with
  | nil => simp [insertDesc]
  | cons z t ih =>
    simp only [insertDesc]
    split
    · simp [List.mem_cons]
    · simp only [List.mem_cons, ih]
      tauto

lemma pairwise_insertDesc {α : Type} (key : α → Nat) (x : α) (l : List α)
    (h : l.Pairwise (fun a b => key b ≤ key a)) :
    (insertDesc key x l).Pairwise (fun a b => key b ≤ key a) := by
  induction l with
  | nil => simp [insertDesc]
  | cons z t ih =>
    rw [List.pairwise_cons] at h
    obtain ⟨hz, ht⟩ := h
    simp only [insertDesc]
    split
    · rename_i hlt
      rw [List.pairwise_cons]
      refine ⟨?_, List.pairwise_cons.mpr ⟨hz, ht⟩⟩
      intro y hy
      rcases List.mem_cons.mp hy with hyz | hyt
      · exact hyz ▸ Nat.le_of_lt hlt
      · exact Nat.le_trans (hz y hyt) (Nat.le_of_lt hlt)
    · rename_i hge
      rw [List.pairwise_cons]
      refine ⟨?_, ih ht⟩
      intro y hy
      rcases (mem_insertDesc key x y t).mp hy with hyx | hyt
      · exact hyx ▸ Nat.le_of_not_lt hge
      · exact hz y hyt

lemma pairwise_sortDesc_go {α : Type} (key : α → Nat) (l acc : List α)
    (h : acc.Pairwise (fun a b => key b ≤ key a)) :
    (l.foldl (fun a x => insertDesc key x a) acc).Pairwise (fun a b => key b ≤ key a) := by
  induction l generalizing acc with
  | nil => exact h
  | cons x t ih => exact ih _ (pairwise_insertDesc key x acc h)

lemma pairwise_sortDesc {α : Type} (key : α → Nat) (l : List α) :
    (sortDesc key l).Pairwise (fun a b => key b ≤ key a) :=
  pairwise_sortDesc_go key l [] (by simp)

lemma mem_sortDesc_go {α : Type} (key : α → Nat) (l acc : List α) (y : α) :
    y ∈ l.foldl (fun a x => insertDesc key x a) acc ↔ y ∈ acc ∨ y ∈ l := by
  induction l generalizing acc with
  | nil => simp
  | cons x t ih =>
    simp only [List.foldl_cons, ih, mem_insertDesc, List.mem_cons]
    tauto

lemma mem_sortDesc {α : Type} (key : α → Nat) (l : List α) (y : α) :
    y ∈ sortDesc key l ↔ y ∈ l := by
  simp [sortDesc, mem_sortDesc_go]

lemma sum_map_insertDesc {α : Type} (key : α → Nat) (f : α → Nat) (x : α) (l : List α) :
    ((insertDesc key x l).map f).sum = f x + (l.map f).sum := by
  induction l with
  | nil => simp [insertDesc]
  | cons z t ih =>
    simp only [insertDesc]
    split
    · simp
    · simp [ih]
      omega

lemma sum_map_sortDesc_go {α : Type} (key : α → Nat) (f : α → Nat) (l acc : List α) :
    ((l.foldl (fun a x => insertDesc key x a) acc).map f).sum
      = (acc.map f).sum + (l.map f).sum := by
  induction l generalizing acc with
  | nil => simp
  | cons x t ih =>
    simp only [List.foldl_cons, ih, sum_map_insertDesc, List.map_cons, List.sum_cons]
    omega

lemma sum_map_sortDesc {α : Type} (key : α → Nat) (f : α → Nat) (l : List α) :
    ((sortDesc key l).map f).sum = (l.map f).sum := by
  simp [sortDesc, sum_map_sortDesc_go]

lemma sumCounts_sortDesc (m : DiseaseCounts) :
    sumCounts (sortDesc Prod.snd m) = sumCounts m :=
  sum_map_sortDesc Prod.snd Prod.snd m

lemma localEntries_total (rs : List Report) (e : CityEntry) (he : e ∈ localEntries rs) :
    e.total = sumCounts e.diseases := by
  rw [localEntries, mem_sortDesc] at he
  obtain ⟨p, _, rfl⟩ := List.mem_map.mp he
  simp [sumCounts_sortDesc]

/-! ## Claims -/

/-- C1: for every collection of Report records, the aggregation table maps
each normalized (city, disease) pair to exactly the number of records whose
normalized location and type fields match that pair, and the per-city total
in the sorted projection equals the sum of the per-disease counts of that
entry. -/
theorem aggregator_count_invariant (reports : List Report) :
    (∀ c d : String, tableCount (groupLocal reports) c d = matchCount reports c d) ∧
    (∀ e ∈ localEntries reports, e.total = sumCounts e.diseases) :=
  ⟨tableCount_groupLocal reports, fun e he => localEntries_total reports e he⟩

/-- Witness for C1 at the scenario records and the "delhi" entry. -/
theorem aggregator_count_invariant_witness :
    tableCount (groupLocal exReports) "delhi" "flu" = matchCount exReports "delhi" "flu" ∧
    ({ city := "delhi", diseases := [("flu", 2)], total := 2 } : CityEntry).total
      = sumCounts ({ city := "delhi", diseases := [("flu", 2)], total := 2 } : CityEntry).diseases :=
  ⟨(aggregator_count_invariant exReports).1 "delhi" "flu",
   (aggregator_count_invariant exReports).2
     { city := "delhi", diseases := [("flu", 2)], total := 2 } (by decide)⟩

/-- C5: every entry of the sorted projection has its disease-count list
sorted by count descending and its total equal to the sum of its counts, the
outer list is sorted by total descending, and the empty input yields an empty
table and an empty entries list. -/
theorem sorted_projection_shape (reports : List Report) :
    (∀ e ∈ localEntries reports,
        e.diseases.Pairwise (fun a b => b.2 ≤ a.2) ∧ e.total = sumCounts e.diseases) ∧
    (localEntries reports).Pairwise (fun a b => b.total ≤ a.total) ∧
    groupLocal [] = ([] : Aggregated) ∧ localEntries [] = [] := by
  refine ⟨?_, pairwise_sortDesc CityEntry.total _, rfl, rfl⟩
  intro e he
  refine ⟨?_, localEntries_total reports e he⟩
  rw [localEntries, mem_sortDesc] at he
  obtain ⟨p, _, rfl⟩ := List.mem_map.mp he
  exact pairwise_sortDesc Prod.snd p.2

/-- Witness for C5 at the scenario records and the "delhi" entry. -/
theorem sorted_projection_shape_witness :
    ({ city := "delhi", diseases := [("flu", 2)], total := 2 } : CityEntry)
        ∈ localEntries exReports ∧
    (([("flu", 2)] : DiseaseCounts).Pairwise (fun a b => b.2 ≤ a.2) ∧
      (2 : Nat) = sumCounts [("flu", 2)]) :=
  ⟨by decide,
   (sorted_projection_shape exReports).1
     { city := "delhi", diseases := [("flu", 2)], total := 2 } (by decide)⟩

/-- A step can land in `Verified` only from `Claimed` (the verify-yes guard)
or by already being there (an action whose control is not rendered). -/
lemma gateStep_to_verified (h : Bool) (s : PaymentStatus) (a : GateAction)
    (hv : gateStep h s a = verifiedPS) : s = claimedPS ∨ s = verifiedPS := by
  obtain ⟨sc, sv⟩ := s
  revert hv
  cases sc <;> cases sv <;> cases a <;> cases h <;> decide

/-- A run that ends in `Verified` either started there or visited `Claimed`. -/
lemma gateRun_verified_visits_claimed (events : List (Bool × GateAction)) :
    ∀ s : PaymentStatus, gateRun s events = verifiedPS →
      s = verifiedPS ∨ claimedPS ∈ gateVisited s events := by
  induction events with
  | nil =>
    intro s h
    exact Or.inl (by simpa [gateRun] using h)
  | cons e t ih =>
    intro s h
    have h' : gateRun (gateStep e.1 s e.2) t = verifiedPS := by
      simpa [gateRun] using h
    rcases ih (gateStep e.1 s e.2) h' with hv | hc
    · rcases gateStep_to_verified e.1 s e.2 hv with hcl | hvv
      · exact Or.inr (by rw [gateVisited, hcl]; exact List.mem_cons_self _ _)
      · exact Or.inl hvv
    · exact Or.inr (by rw [gateVisited]; exact List.mem_cons_of_mem _ hc)

/-- C2: starting from `Unclaimed`, any event sequence that ends in `Verified`
visits `Claimed` on the way; and in `Unclaimed` the doctor verify-yes and
verify-no actions leave the state unchanged (their buttons live in the
verification popup, which is rendered only in `Claimed`). -/
theorem verified_only_through_claimed :
    (∀ events : List (Bool × GateAction),
        gateRun unclaimedPS events = verifiedPS →
          claimedPS ∈ gateVisited unclaimedPS events) ∧
    (∀ hasMsgs : Bool,
        gateStep hasMsgs unclaimedPS .verifyYes = unclaimedPS ∧
        gateStep hasMsgs unclaimedPS .verifyNo = unclaimedPS) := by
  constructor
  · intro events h
    rcases gateRun_verified_visits_claimed events unclaimedPS h with hv | hc
    · exact absurd hv (by decide)
    · exact hc
  · intro hasMsgs
    cases hasMsgs <;> exact ⟨rfl, rfl⟩

/-- Witness for C2: the run claim–verify reaches `Verified` and visits
`Claimed`. -/
theorem verified_only_through_claimed_witness :
    gateRun unclaimedPS [(true, .confirmPayment), (true, .verifyYes)] = verifiedPS ∧
    claimedPS ∈ gateVisited unclaimedPS [(true, .confirmPayment), (true, .verifyYes)] :=
  ⟨by decide,
   verified_only_through_claimed.1 [(true, .confirmPayment), (true, .verifyYes)] (by decide)⟩

/-- C4: every `payment_status` value written by a payment-gate operation —
patient confirm-payment, doctor verify-yes, doctor verify-no, and the
prescription-send initialisation — satisfies `verified ≤ claimed`, i.e.
verified implies claimed. -/
theorem payment_writes_satisfy_invariant :
    confirmPaymentWrite.verified ≤ confirmPaymentWrite.claimed ∧
    verifyYesWrite.verified ≤ verifyYesWrite.claimed ∧
    verifyNoWrite.verified ≤ verifyNoWrite.claimed ∧
    sendPrescriptionWrite.verified ≤ sendPrescriptionWrite.claimed := by
  decide

/-- C9: whenever the send-prescription handler gets past its guards and
writes, the payment status it writes is `{claimed:false, verified:false}`,
whatever the previous state was — in particular a previous `Verified` is
revoked. -/
theorem send_prescription_resets_gate
    (pd mn di dt : String) (hu hp : Bool) (prev w : PaymentStatus)
    (h : handleSendPrescription pd mn di dt hu hp prev = some w) :
    w = unclaimedPS := by
  simp only [handleSendPrescription] at h
  split at h
  · exact absurd h (by simp)
  · split at h
    · exact absurd h (by simp)
    · exact (Option.some.inj h).symm

/-- Witness for C9: a fully filled form sent while the gate is `Verified`
resets it to `Unclaimed`. -/
theorem send_prescription_resets_gate_witness :
    handleSendPrescription "Fever" "Paracetamol" "Twice daily" "2025-01-01"
        true true verifiedPS = some unclaimedPS ∧
    (unclaimedPS = unclaimedPS) :=
  ⟨by decide,
   send_prescription_resets_gate "Fever" "Paracetamol" "Twice daily" "2025-01-01"
     true true verifiedPS unclaimedPS (by decide)⟩

/-- C3 counterexample: the code blurs on `!paymentVerified`, not on
`claimed && !verified`.  First conjunct: in the `Unclaimed` state
(claimed=false, verified=false) with a doctor prescription present, the
content is blurred, although the claim requires the `Claimed` state for
obscuring.  Second conjunct: in the `Claimed` state with only a Gemini
buy-link message (no doctor-originated message at all), the content is
blurred, although the claim requires a doctor-originated message. -/
theorem blur_policy_counterexample :
    (isBlurred .patient (updateHasDoctorSentFirst false [exDoctorPrescriptionMsg])
        unclaimedPS exDoctorPrescriptionMsg = true ∧
      (unclaimedPS.claimed && !unclaimedPS.verified) = false) ∧
    (isBlurred .patient (updateHasDoctorSentFirst false [exGeminiBuyLinkMsg])
        claimedPS exGeminiBuyLinkMsg = true ∧
      ([exGeminiBuyLinkMsg].any (fun m => m.sender == Sender.doctor)) = false) := by
  decide

/-- C3 amended: in the patient view, prescription and buy-link content is
obscured (the blur classes are applied; the text is still rendered and
transported) exactly while the payment is **not verified** — the `Unclaimed`
and `Claimed` states alike — and the message snapshot has been non-empty at
least once (messages of any sender, not only doctor-originated); in all other
states it is shown unobscured. -/
theorem blur_policy_amended (role : Role) (prevFlag : Bool) (msgs : List Message)
    (ps : PaymentStatus) (msg : Message) :
    isBlurred role (updateHasDoctorSentFirst prevFlag msgs) ps msg
      = (role == .patient && (prevFlag || !msgs.isEmpty) && !ps.verified
          && (msg.type == .prescription || msg.type == .buyLink)) := by
  cases msgs <;> cases prevFlag <;>
    simp [isBlurred, shouldBlur, updateHasDoctorSentFirst, Bool.and_assoc]

/-- C6 counterexample: the empty string `""` and the single space `" "`
differ only in leading/trailing whitespace, yet the records carrying them as
locations are counted under two different keys: `""` is falsy in JS, so the
`|| "Unknown"` fallback intercepts it (key `"unknown"`), while `" "` is
truthy and normalizes to the key `""`. -/
theorem normalization_counterexample :
    exEmptyLocReport.location = some "" ∧
    exSpaceLocReport.location = some " " ∧
    cityKey exEmptyLocReport = "unknown" ∧
    cityKey exSpaceLocReport = "" ∧
    (cityKey exEmptyLocReport == cityKey exSpaceLocReport) = false ∧
    tableCount (groupLocal [exEmptyLocReport, exSpaceLocReport]) "unknown" "flu" = 1 ∧
    tableCount (groupLocal [exEmptyLocReport, exSpaceLocReport]) "" "flu" = 1 := by
  decide

/-- C6 amended: two records whose location (or type) fields are **non-empty**
strings with the same trimmed, lowercased content are counted under the same
key (the `|| "Unknown"` fallback intercepts empty strings before
normalization); and the scenario holds: the three records aggregate to
`{delhi:{flu:2}, mumbai:{dengue:1}}`, with sorted entries delhi (total 2)
then mumbai (total 1). -/
theorem normalization_invariant_amended :
    (∀ (r1 r2 : Report) (s1 s2 : String),
        r1.location = some s1 → r2.location = some s2 → s1 ≠ "" → s2 ≠ "" →
        normalizeKey s1 = normalizeKey s2 → cityKey r1 = cityKey r2) ∧
    (∀ (r1 r2 : Report) (s1 s2 : String),
        r1.type = some s1 → r2.type = some s2 → s1 ≠ "" → s2 ≠ "" →
        normalizeKey s1 = normalizeKey s2 → diseaseKey r1 = diseaseKey r2) ∧
    groupLocal exReports = [("delhi", [("flu", 2)]), ("mumbai", [("dengue", 1)])] ∧
    localEntries exReports =
      [{ city := "delhi", diseases := [("flu", 2)], total := 2 },
       { city := "mumbai", diseases := [("dengue", 1)], total := 1 }] := by
  refine ⟨?_, ?_, by decide, by decide⟩
  · intro r1 r2 s1 s2 h1 h2 n1 n2 hn
    simp [cityKey, jsOrDefault, h1, h2, n1, n2, hn]
  · intro r1 r2 s1 s2 h1 h2 n1 n2 hn
    simp [diseaseKey, jsOrDefault, h1, h2, n1, n2, hn]

/-- Witness for the amended C6 at the two scenario records for Delhi. -/
theorem normalization_invariant_amended_witness :
    (normalizeKey "Delhi" = normalizeKey " delhi " ∧
      normalizeKey "Flu" = normalizeKey "flu") ∧
    cityKey ⟨"1", some "Flu", some "Delhi", none⟩
        = cityKey ⟨"2", some "flu", some " delhi ", none⟩ ∧
    diseaseKey ⟨"1", some "Flu", some "Delhi", none⟩
        = diseaseKey ⟨"2", some "flu", some " delhi ", none⟩ :=
  ⟨⟨by decide, by decide⟩,
   normalization_invariant_amended.1
     ⟨"1", some "Flu", some "Delhi", none⟩ ⟨"2", some "flu", some " delhi ", none⟩
     "Delhi" " delhi " rfl rfl (by decide) (by decide) (by decide),
   normalization_invariant_amended.2.1
     ⟨"1", some "Flu", some "Delhi", none⟩ ⟨"2", some "flu", some " delhi ", none⟩
     "Flu" "flu" rfl rfl (by decide) (by decide) (by decide)⟩

/-- C10: the "Unknown" fallback applies exactly to a missing, null or
empty-string location; a whitespace-only location such as `" "` is kept and
normalizes to the empty-string key, so whitespace-only and missing locations
are counted under two different keys. -/
theorem unknown_fallback_scope :
    (∀ r : Report, r.location = none → cityKey r = "unknown") ∧
    (∀ r : Report, r.location = some "" → cityKey r = "unknown") ∧
    (∀ (r : Report) (s : String), r.location = some s → s ≠ "" →
        cityKey r = normalizeKey s) ∧
    cityKey exSpaceLocReport = "" ∧
    (cityKey exSpaceLocReport == cityKey exNoLocReport) = false ∧
    groupLocal [exNoLocReport, exSpaceLocReport]
      = [("unknown", [("flu", 1)]), ("", [("flu", 1)])] := by
  refine ⟨?_, ?_, ?_, by decide, by decide, by decide⟩
  · intro r h
    simp [cityKey, jsOrDefault, h]
    decide
  · intro r h
    simp [cityKey, jsOrDefault, h]
    decide
  · intro r s h hs
    simp [cityKey, jsOrDefault, h, hs]

/-- Witness for C10 at concrete reports. -/
theorem unknown_fallback_scope_witness :
    cityKey exNoLocReport = "unknown" ∧
    cityKey exEmptyLocReport = "unknown" ∧
    cityKey exSpaceLocReport = normalizeKey " " :=
  ⟨unknown_fallback_scope.1 exNoLocReport rfl,
   unknown_fallback_scope.2.1 exEmptyLocReport rfl,
   unknown_fallback_scope.2.2.1 exSpaceLocReport " " rfl (by decide)⟩

/-- C7: when the global-outbreak fetch fails with fewer than `maxRetries = 3`
retries already made, a retry is scheduled after `2000 * (attempt number)`
milliseconds together with a retryable error message; once the ceiling is
reached, the error is surfaced terminally and no retry is scheduled. -/
theorem fetch_retry_policy (retryCount : Nat) (msg : String) :
    (retryCount < maxRetries →
      handleFetchFailure retryCount msg
        = .retryScheduled (retryCount + 1) (2000 * (retryCount + 1))
            ("Retrying... Failed to fetch global outbreaks: " ++ msg)) ∧
    (maxRetries ≤ retryCount →
      handleFetchFailure retryCount msg
        = .terminalError ("Failed to fetch global outbreaks after 3 retries: " ++ msg)) := by
  constructor
  · intro h
    simp [handleFetchFailure, h]
  · intro h
    have h3 : (toString maxRetries : String) = "3" := rfl
    simp [handleFetchFailure, Nat.not_lt.mpr h, h3]

/-- Witness for C7 below the ceiling (0 retries made) and at the ceiling
(3 retries made). -/
theorem fetch_retry_policy_witness :
    ((0 : Nat) < maxRetries ∧
      handleFetchFailure 0 "HTTP error! status: 500"
        = .retryScheduled 1 2000
            "Retrying... Failed to fetch global outbreaks: HTTP error! status: 500") ∧
    (maxRetries ≤ (3 : Nat) ∧
      handleFetchFailure 3 "HTTP error! status: 500"
        = .terminalError
            "Failed to fetch global outbreaks after 3 retries: HTTP error! status: 500") :=
  ⟨⟨by decide, (fetch_retry_policy 0 "HTTP error! status: 500").1 (by decide)⟩,
   ⟨by decide, (fetch_retry_policy 3 "HTTP error! status: 500").2 (by decide)⟩⟩

/-- C8: response-text handling makes exactly two parse attempts — a direct
parse of the whole text accepted when it yields a non-null object, then a
parse of the regex-extracted brace block accepted whenever it parses — and
the result is an error precisely when both attempts fail or no text was
present in the response.  Stated for every parse oracle `jsonParse`
(abstracting the runtime `JSON.parse`). -/
theorem response_parse_two_attempts (jsonParse : String → Option JsonValue) :
    (∀ text : String,
        (parseOutbreakResponse jsonParse (some text)).isOk
          = (directParseOk jsonParse text || extractParseOk jsonParse text)) ∧
    (parseOutbreakResponse jsonParse none).isOk = false := by
  constructor
  · intro text
    have hfall : (fallbackParse jsonParse text).isOk = extractParseOk jsonParse text := by
      simp only [fallbackParse, extractParseOk]
      cases he : extractBraceBlock text with
      | none => simp [Except.isOk, Except.toBool]
      | some block =>
        cases hb : jsonParse block <;> simp [hb, Except.isOk, Except.toBool]
    simp only [parseOutbreakResponse, directParseOk]
    cases hp : jsonParse text with
    | none =>
      simp only [hp, Bool.false_or]
      exact hfall
    | some v =>
      cases hv : isObjectLike v
      · simp only [hp, hv, Bool.false_or, Bool.false_eq_true, if_false]
        exact hfall
      · simp [hp, hv, Except.isOk, Except.toBool]
  · simp [parseOutbreakResponse, Except.isOk, Except.toBool]

/-- Witness for C8: a parse oracle that accepts exactly the block `{"a":1}`,
applied to a text whose direct parse fails but whose extracted brace block
parses (second attempt), and to a text with no braces (both attempts fail). -/
theorem response_parse_two_attempts_witness :
    (parseOutbreakResponse
        (fun s => if s = "\x7b\"a\":1\x7d" then some (.obj [("a", .num 1)]) else none)
        (some "noise \x7b\"a\":1\x7d noise")).isOk
      = (directParseOk
            (fun s => if s = "\x7b\"a\":1\x7d" then some (.obj [("a", .num 1)]) else none)
            "noise \x7b\"a\":1\x7d noise"
          || extractParseOk
            (fun s => if s = "\x7b\"a\":1\x7d" then some (.obj [("a", .num 1)]) else none)
            "noise \x7b\"a\":1\x7d noise") ∧
    (parseOutbreakResponse
        (fun s => if s = "\x7b\"a\":1\x7d" then some (.obj [("a", .num 1)]) else none)
        none).isOk = false :=
  ⟨(response_parse_two_attempts
      (fun s => if s = "\x7b\"a\":1\x7d" then some (.obj [("a", .num 1)]) else none)).1
      "noise \x7b\"a\":1\x7d noise",
   (response_parse_two_attempts
      (fun s => if s = "\x7b\"a\":1\x7d" then some (.obj [("a", .num 1)]) else none)).2⟩

end HealthHub
